import Mathlib

/-!
Shallow embedding of the row reconciler of `src/main.py` (the `save_changes`
function, lines 158-250) together with the helper `get_ids` and the derived
sets `deleted_ids` / `common_ids` it computes.

Modelling decisions, each tied to a line of the source:

* A pandas DataFrame (`main.py` passes `original_df` / `edited_df`) is a list
  of column names plus a list of rows, each row a list of cell values aligned
  positionally with the columns.  A cell is null (pandas `NaN` / `None`), an
  integer, or a string.
* `get_ids` (line 173): `set(df['rowid'].dropna().astype(int))` — the finset
  of integer values found in the `rowid` column, nulls dropped.  (In the
  editor flow the `rowid` column only ever holds integers or nulls, so the
  embedding extracts the integer cells.)
* Deletions (lines 184-192): `deleted_ids = orig_ids - current_ids`; when
  non-empty, ONE `DELETE ... WHERE rowid IN (...)` statement.
* Additions (lines 197-202): rows of the edited frame whose `rowid` cell is
  null; the payload drops the `rowid` column (`drop(columns=['rowid'])`).
* Updates (lines 206-242): for each id in `common_ids = orig_ids &
  current_ids`, the edited and original rows are fetched by rowid
  (`set_index('rowid')` removes the rowid column from the compared payloads,
  line 207-208) and compared; when they differ one UPDATE statement is issued
  whose SET clause lists every non-rowid column with the edited row's values
  (lines 219-241).  The bind-key sanitisation of lines 223-233 only renames
  bind parameters, never the SET column names, so it is invisible at this
  abstraction.  A Python `set` iterates in unspecified order; the embedding
  iterates `common_ids` in first-occurrence order of the original frame,
  which is irrelevant to every claim (all claims are about membership and
  counts).
* The whole body runs inside `trans = conn.begin()` (line 160); on any
  exception the code calls `trans.rollback()` and stores
  `f"Error saving changes: {e}"` (lines 248-250).  Statement execution
  against the database is abstracted as a function
  `exec : Table → Stmt → Except String Table`; the rollback is modelled by
  returning the pre-transaction table unchanged.
* Line 165: if `'rowid'` is not a column of the original frame the function
  shows an error and returns before executing anything.  If only the edited
  frame lacks the column, line 184 raises a `KeyError` which the `except`
  branch turns into `"Error saving changes: 'rowid'"`; both guards fire
  before any statement execution.
-/

namespace SQLEditor

/-- A cell value of a data frame: pandas `NaN`/`None`, an integer, or a
string. -/
inductive Val where
| vNull : Val
| vInt (i : Int) : Val
| vStr (s : String) : Val
deriving DecidableEq, Repr

/-- A tabular snapshot: named columns and rows of cells aligned with the
columns (the model of a pandas DataFrame as used by `save_changes`). -/
structure DataFrame where
columns : List String
rows : List (List Val)
deriving DecidableEq, Repr

/-- Value of column `c` in row `row` of frame `df` (null when the column is
absent or the row is short). -/
def DataFrame.rowVal (df : DataFrame) (row : List Val) (c : String) : Val :=
match df.columns.findIdx? (fun c2 => c2 = c) with
| some i => row.getD i Val.vNull
| none => Val.vNull

/-- The `rowid` cell of a row (the reconciliation key, `main.py` line 150
fetches it as an ordinary column). -/
def rowidOf (df : DataFrame) (row : List Val) : Val :=
df.rowVal row "rowid"

/-- The integer entries of the `rowid` column in row order
(`df['rowid'].dropna().astype(int)` before the `set(...)` of line 174). -/
def rowidEntries (df : DataFrame) : List Int :=
df.rows.filterMap (fun r =>
  match rowidOf df r with
  | Val.vInt i => some i
  | _ => none)

/-- `get_ids` (line 173): `set(df['rowid'].dropna().astype(int))`. -/
def get_ids (df : DataFrame) : Finset Int :=
(rowidEntries df).toFinset

/-- `deleted_ids = orig_ids - current_ids` (line 185). -/
def deleted_ids (O E : DataFrame) : Finset Int :=
get_ids O \ get_ids E

/-- `common_ids = orig_ids & current_ids` (line 206). -/
def common_ids (O E : DataFrame) : Finset Int :=
get_ids O ∩ get_ids E

/-- `new_rows = edited_df[edited_df['rowid'].isna()]` (line 197). -/
def new_rows (E : DataFrame) : List (List Val) :=
E.rows.filter (fun r => rowidOf E r = Val.vNull)

/-- Drop the `rowid` column from a row, keeping the remaining
(column, value) pairs in column order: the insert payload of line 201
(`drop(columns=['rowid'])`) and the compared/updated payload of lines
207-208 (`set_index('rowid')` removes the column). -/
def dropRowid (df : DataFrame) (row : List Val) : List (String × Val) :=
(df.columns.zip row).filter (fun p => ¬ p.1 = "rowid")

/-- The non-rowid payload of the (first) row carrying rowid `rid`, when one
exists: the model of `df.set_index('rowid').loc[rid]` (lines 207-213). -/
def lookupRow (df : DataFrame) (rid : Int) : Option (List (String × Val)) :=
(df.rows.find? (fun r => rowidOf df r = Val.vInt rid)).map (dropRowid df)

/-- A DML statement issued by the reconciler. -/
inductive Stmt where
| delete (ids : Finset Int) : Stmt
| insert (payload : List (String × Val)) : Stmt
| update (setPairs : List (String × Val)) (rid : Int) : Stmt
deriving DecidableEq

/-- Statements of the deletion phase (lines 187-192): one
`DELETE ... WHERE rowid IN (deleted_ids)` when the set is non-empty. -/
def deleteStmts (O E : DataFrame) : List Stmt :=
if (deleted_ids O E).Nonempty then [Stmt.delete (deleted_ids O E)] else []

/-- Statements of the addition phase (lines 199-202): one INSERT per
null-rowid row, payload without the `rowid` column. -/
def insertStmts (E : DataFrame) : List Stmt :=
(new_rows E).map (fun r => Stmt.insert (dropRowid E r))

/-- The body of the update loop for one id (lines 211-242): fetch both
payloads by rowid, compare, and issue one UPDATE when they differ.  The
SET clause rewrites the full non-rowid payload of the edited row; the extra
`rowid` bind parameter of line 239 only feeds the WHERE clause.  The `none`
cases are unreachable when `rid` lies in `common_ids`. -/
def updateFor (O E : DataFrame) (rid : Int) : List Stmt :=
match lookupRow E rid, lookupRow O rid with
| some rowNew, some rowOrig =>
  if ¬ rowNew = rowOrig then [Stmt.update rowNew rid] else []
| _, _ => []

/-- An enumeration without duplicates of `common_ids`: a Python set iterates
in unspecified order, so the loop of line 211 is modelled as iterating the
common ids in first-occurrence order of the original frame (every claim only
concerns membership and counts, never statement order). -/
def commonIdList (O E : DataFrame) : List Int :=
((rowidEntries O).dedup).filter (fun i => i ∈ get_ids E)

/-- Statements of the update phase: the loop of line 211 over
`common_ids`. -/
def updateStmts (O E : DataFrame) : List Stmt :=
(commonIdList O E).flatMap (updateFor O E)

/-- Every DML statement `save_changes` issues, in program order:
deletions (step 1), insertions (step 2), updates (step 3). -/
def saveStmts (O E : DataFrame) : List Stmt :=
deleteStmts O E ++ insertStmts E ++ updateStmts O E

/-- Database-side state of the target table: rows as (rowid, payload). -/
abbrev Table : Type := List (Int × List (String × Val))

/-- Outcome of one `save_changes` invocation: the success message with its
Added/Deleted/Updated counts (line 245), the early return of line 167, or the
rolled-back failure message of line 250. -/
inductive SaveOutcome where
| success (added deleted updated : Nat) : SaveOutcome
| missingRowid : SaveOutcome
| failure (msg : String) : SaveOutcome
deriving DecidableEq, Repr

/-- Run statements left to right against the connection, stopping at the
first failure (the Python loop raises at the first failing `conn.execute`). -/
def execStmts (exec : Table → Stmt → Except String Table) :
    Table → List Stmt → Except String Table
| t, [] => Except.ok t
| t, s :: rest =>
  match exec t s with
  | Except.ok t2 => execStmts exec t2 rest
  | Except.error e => Except.error e

/-- `save_changes(table_name, original_df, edited_df, engine)`
(lines 158-250).  `exec` abstracts `conn.execute` / `to_sql` against the
backend; `t` is the table's state when the transaction begins.  On success
the transaction commits (the executed state is returned with the counts of
line 245); on a statement failure `trans.rollback()` restores `t` and the
message `f"Error saving changes: {e}"` is stored (lines 248-250); a missing
`rowid` column on the original frame returns before executing anything
(lines 165-167); a missing `rowid` column on the edited frame raises
`KeyError('rowid')` at line 184, also before executing anything. -/
def save_changes (exec : Table → Stmt → Except String Table) (t : Table)
    (O E : DataFrame) : Table × SaveOutcome :=
if "rowid" ∈ O.columns then
  if "rowid" ∈ E.columns then
    match execStmts exec t (saveStmts O E) with
    | Except.ok t2 =>
      (t2, SaveOutcome.success (new_rows E).length (deleted_ids O E).card
            (updateStmts O E).length)
    | Except.error e => (t, SaveOutcome.failure ("Error saving changes: " ++ e))
  else (t, SaveOutcome.failure "Error saving changes: 'rowid'")
else (t, SaveOutcome.missingRowid)

/-- Next rowid the storage engine assigns: SQLite hands out
`max(existing rowids) + 1` (and `1` on an empty table). -/
def freshId (t : Table) : Int :=
(t.map Prod.fst).foldr max 0 + 1

/-- Apply one SET pair list to a stored row, as SQL `UPDATE` does: each
listed column is overwritten; a `rowid` pair in the SET list would rewrite
the row identifier itself (SQLite permits `SET rowid = ...`), any other pair
rewrites the matching payload column. -/
def applySet (r : Int × List (String × Val)) (sps : List (String × Val)) :
    Int × List (String × Val) :=
(match sps.lookup "rowid" with
 | some (Val.vInt i) => i
 | _ => r.1,
 r.2.map (fun cw =>
   match sps.lookup cw.1 with
   | some v => (cw.1, v)
   | none => cw))

/-- SQLite-style semantics of one statement against the table. -/
def applyStmt (t : Table) : Stmt → Table
| Stmt.delete ids => t.filter (fun r => ¬ r.1 ∈ ids)
| Stmt.insert payload => t ++ [(freshId t, payload)]
| Stmt.update sps rid => t.map (fun r => if r.1 = rid then applySet r sps else r)

/-- The never-failing SQLite executor (no constraints on the table). -/
def sqliteExec : Table → Stmt → Except String Table :=
fun t s => Except.ok (applyStmt t s)

/-- An executor whose first executed statement violates a constraint. -/
def constraintFailExec : Table → Stmt → Except String Table :=
fun _ _ => Except.error "UNIQUE constraint failed"

/-- An executor that raises with the bare message `boom`. -/
def boomExec : Table → Stmt → Except String Table :=
fun _ _ => Except.error "boom"

/-! Concrete snapshots used by the scenario theorems and the witnesses.
`O4`/`E4raw` are the spec's scenario `O = {(1,"a"),(2,"b")}`,
`E = {(1,"a"),(3,"b")}` taken literally; `E4` is the same edit with the new
row carrying a null identifier, which is how a freshly added grid row
actually reaches `save_changes`. -/

/-- Original snapshot `{(1,"a"),(2,"b")}`. -/
def O4 : DataFrame :=
DataFrame.mk ["rowid", "val"] [[Val.vInt 1, Val.vStr "a"], [Val.vInt 2, Val.vStr "b"]]

/-- Edited snapshot `{(1,"a"),(3,"b")}`, the new row carrying identifier 3. -/
def E4raw : DataFrame :=
DataFrame.mk ["rowid", "val"] [[Val.vInt 1, Val.vStr "a"], [Val.vInt 3, Val.vStr "b"]]

/-- Edited snapshot `{(1,"a"),(null,"b")}`, the new row carrying a null
identifier. -/
def E4 : DataFrame :=
DataFrame.mk ["rowid", "val"] [[Val.vInt 1, Val.vStr "a"], [Val.vNull, Val.vStr "b"]]

/-- The new grid row of `E4`. -/
def newRow4 : List Val := [Val.vNull, Val.vStr "b"]

/-- The extra grid row of `E4raw` carrying the unknown identifier 3. -/
def strayRow4 : List Val := [Val.vInt 3, Val.vStr "b"]

/-- Database-side table matching `O4`. -/
def t4 : Table := [(1, [("val", Val.vStr "a")]), (2, [("val", Val.vStr "b")])]

/-- Original snapshot `{(1,"a")}` of the update scenario. -/
def O5 : DataFrame := DataFrame.mk ["rowid", "v"] [[Val.vInt 1, Val.vStr "a"]]

/-- Edited snapshot `{(1,"z")}` of the update scenario. -/
def E5 : DataFrame := DataFrame.mk ["rowid", "v"] [[Val.vInt 1, Val.vStr "z"]]

/-- Edited snapshot equal to `O5` except for one extra row with a null
identifier. -/
def E2 : DataFrame :=
DataFrame.mk ["rowid", "v"] [[Val.vInt 1, Val.vStr "a"], [Val.vNull, Val.vStr "b"]]

/-- A snapshot without a `rowid` column. -/
def Onorid : DataFrame := DataFrame.mk ["val"] [[Val.vStr "a"]]

/-- An edited snapshot without a `rowid` column. -/
def Enorid : DataFrame := DataFrame.mk ["val"] [[Val.vStr "b"]]

/-! ### Helper lemmas -/

/-- The `filterMap` branch of `rowidEntries` hits exactly the integer
cells. -/
lemma rowid_match_eq_some (v : Val) (rid : Int) :
    (match v with
     | Val.vInt i => some i
     | _ => none) = some rid ↔ v = Val.vInt rid := by
cases v <;> simp

/-- `rid ∈ get_ids df` iff some row carries the integer rowid `rid`. -/
lemma mem_get_ids {df : DataFrame} {rid : Int} :
    rid ∈ get_ids df ↔ ∃ r ∈ df.rows, rowidOf df r = Val.vInt rid := by
simp only [get_ids, rowidEntries, List.mem_toFinset, List.mem_filterMap,
  rowid_match_eq_some]

/-- A member of `get_ids` always has a payload: `set_index('rowid').loc[rid]`
succeeds for every id of the frame. -/
lemma lookupRow_isSome_of_mem {df : DataFrame} {rid : Int}
    (h : rid ∈ get_ids df) : ∃ p, lookupRow df rid = some p := by
obtain ⟨r, hr, hrow⟩ := mem_get_ids.mp h
have hfind : (df.rows.find? (fun r => rowidOf df r = Val.vInt rid)).isSome := by
  rw [List.find?_isSome]
  exact ⟨r, hr, by simp [hrow]⟩
obtain ⟨r0, hr0⟩ := Option.isSome_iff_exists.mp hfind
exact ⟨dropRowid df r0, by simp [lookupRow, hr0]⟩

/-- A successful row lookup returns a rowid-free payload of the frame. -/
lemma lookupRow_eq_some {df : DataFrame} {rid : Int} {p : List (String × Val)}
    (h : lookupRow df rid = some p) : ∃ r, r ∈ df.rows ∧ p = dropRowid df r := by
obtain ⟨r, hr, hp⟩ := Option.map_eq_some'.mp h
exact ⟨r, List.mem_of_find?_eq_some hr, hp.symm⟩

/-- No pair of a `dropRowid` payload names the `rowid` column. -/
lemma dropRowid_no_rowid {df : DataFrame} {row : List Val} {c : String}
    {v : Val} (h : (c, v) ∈ dropRowid df row) : ¬ c = "rowid" := by
have := (List.mem_filter.mp h).2
simpa using this

/-- Membership in the enumeration of `common_ids` coincides with membership
in the set. -/
lemma mem_commonIdList {O E : DataFrame} {i : Int} :
    i ∈ commonIdList O E ↔ i ∈ common_ids O E := by
simp [commonIdList, common_ids, get_ids, List.mem_filter, List.mem_dedup,
  Finset.mem_inter, List.mem_toFinset]

/-- Shape of the statements produced by one pass of the update loop. -/
lemma mem_updateFor {O E : DataFrame} {i : Int} {s : Stmt}
    (h : s ∈ updateFor O E i) :
    ∃ rowNew rowOrig, lookupRow E i = some rowNew ∧
      lookupRow O i = some rowOrig ∧ ¬ rowNew = rowOrig ∧
      s = Stmt.update rowNew i := by
unfold updateFor at h
split at h
case _ rowNew rowOrig heqE heqO =>
  split at h
  case isTrue hne =>
    simp only [List.mem_singleton] at h
    exact ⟨rowNew, rowOrig, heqE, heqO, hne, h⟩
  case isFalse => simp at h
case _ => simp at h

/-- The update loop is silent on an id whose two payloads agree. -/
lemma updateFor_eq_nil_of_eq {O E : DataFrame} {i : Int}
    (h : lookupRow E i = lookupRow O i) : updateFor O E i = [] := by
unfold updateFor
cases hO : lookupRow O i with
| none => rw [h, hO]
| some p => rw [h, hO]; simp

/-- The update loop issues exactly one UPDATE on an id whose two payloads
differ. -/
lemma updateFor_eq_of_ne {O E : DataFrame} {i : Int}
    {rowNew rowOrig : List (String × Val)} (hE : lookupRow E i = some rowNew)
    (hO : lookupRow O i = some rowOrig) (hne : ¬ rowNew = rowOrig) :
    updateFor O E i = [Stmt.update rowNew i] := by
unfold updateFor
rw [hE, hO]
simp [hne]

/-- Characterisation of the UPDATE statements among everything
`save_changes` issues. -/
lemma update_mem_saveStmts {O E : DataFrame} {ps : List (String × Val)}
    {rid : Int} (h : Stmt.update ps rid ∈ saveStmts O E) :
    rid ∈ common_ids O E ∧ lookupRow E rid = some ps ∧
      ¬ lookupRow E rid = lookupRow O rid := by
rcases List.mem_append.mp h with h1 | h2
· rcases List.mem_append.mp h1 with hd | hi
  · exfalso
    unfold deleteStmts at hd
    split at hd <;> simp_all
  · exfalso
    unfold insertStmts at hi
    obtain ⟨r, _, hr⟩ := List.mem_map.mp hi
    exact Stmt.noConfusion hr
· obtain ⟨i, hi, hmem⟩ := List.mem_flatMap.mp h2
  obtain ⟨rowNew, rowOrig, heqE, heqO, hne, hshape⟩ := mem_updateFor hmem
  obtain ⟨hps, hrid⟩ : ps = rowNew ∧ rid = i := by
    cases hshape; exact ⟨rfl, rfl⟩
  subst hps hrid
  refine ⟨mem_commonIdList.mp hi, heqE, ?_⟩
  rw [heqE, heqO]
  simp [hne]

/-- Every statement of the update phase is an UPDATE. -/
lemma mem_updateStmts_shape {O E : DataFrame} {s : Stmt}
    (h : s ∈ updateStmts O E) : ∃ ps rid, s = Stmt.update ps rid := by
obtain ⟨i, _, hmem⟩ := List.mem_flatMap.mp h
obtain ⟨rowNew, _, _, _, _, hshape⟩ := mem_updateFor hmem
exact ⟨rowNew, i, hshape⟩

/-- A lookup for `rowid` fails on any pair list that never names it. -/
lemma lookup_rowid_eq_none {ps : List (String × Val)}
    (h : ∀ c v, (c, v) ∈ ps → ¬ c = "rowid") : ps.lookup "rowid" = none := by
induction ps with
| nil => rfl
| cons hd tl ih =>
  obtain ⟨c, v⟩ := hd
  have hhd : ¬ c = "rowid" := h c v (by simp)
  have hbeq : ("rowid" == c) = false :=
    beq_eq_false_iff_ne.mpr (fun he => hhd he.symm)
  simp only [List.lookup, hbeq]
  exact ih (fun c2 v2 hmem => h c2 v2 (List.mem_cons_of_mem _ hmem))

/-! ### Claim theorems -/

/-- C1: whenever some DELETE, INSERT or UPDATE statement of a
`save_changes` invocation fails, the whole transaction is rolled back, the
table is byte-identical to its pre-operation state (the returned table is
the pre-transaction table itself), no partial changes are visible, and an
error is surfaced to the caller. -/
theorem save_changes_rolls_back_on_failure
    (exec : Table → Stmt → Except String Table) (t : Table) (O E : DataFrame)
    (e : String) (hO : "rowid" ∈ O.columns) (hE : "rowid" ∈ E.columns)
    (hfail : execStmts exec t (saveStmts O E) = Except.error e) :
    save_changes exec t O E =
      (t, SaveOutcome.failure ("Error saving changes: " ++ e)) := by
unfold save_changes
rw [if_pos hO, if_pos hE, hfail]

/-- Witness for C1: a concrete run whose first statement violates a
constraint rolls back to the untouched table. -/
theorem save_changes_rolls_back_on_failure_witness :
    save_changes constraintFailExec t4 O4 E4 =
      (t4, SaveOutcome.failure "Error saving changes: UNIQUE constraint failed") :=
save_changes_rolls_back_on_failure constraintFailExec t4 O4 E4
  "UNIQUE constraint failed" (by decide) (by decide) rfl

/-- C3: the sets `deleted_ids` (orig minus current) and `common_ids`
(orig intersect current) computed by the reconciler are disjoint and their
union is the original id set. -/
theorem deleted_and_common_partition_orig (O E : DataFrame) :
    Disjoint (deleted_ids O E) (common_ids O E) ∧
      deleted_ids O E ∪ common_ids O E = get_ids O :=
⟨Finset.disjoint_sdiff_inter (get_ids O) (get_ids E),
 Finset.sdiff_union_inter (get_ids O) (get_ids E)⟩

/-- C6: when the input snapshots lack the `rowid` column, `save_changes`
rejects the operation before any database write: whatever the executor
would do, no statement runs and the table is returned unchanged. -/
theorem missing_rowid_rejected
    (exec : Table → Stmt → Except String Table) (t : Table) (O E : DataFrame)
    (hO : ¬ "rowid" ∈ O.columns) (_hE : ¬ "rowid" ∈ E.columns) :
    save_changes exec t O E = (t, SaveOutcome.missingRowid) := by
unfold save_changes
rw [if_neg hO]

/-- Witness for C6: a concrete rowid-less pair of snapshots is rejected with
the table untouched, even under the real executor. -/
theorem missing_rowid_rejected_witness :
    save_changes sqliteExec t4 Onorid Enorid = (t4, SaveOutcome.missingRowid) :=
missing_rowid_rejected sqliteExec t4 Onorid Enorid (by decide) (by decide)

/-- Counterexample to C7: the message surfaced by a failing `save_changes`
is not the underlying error message itself; the code stores
`f"Error saving changes: {e}"`, so an underlying `boom` is surfaced with a
prefix, not unmodified. -/
theorem error_message_not_unmodified_counterexample :
    (save_changes boomExec t4 O4 E4).2 =
        SaveOutcome.failure "Error saving changes: boom" ∧
      ¬ (save_changes boomExec t4 O4 E4).2 = SaveOutcome.failure "boom" := by
constructor
· rfl
· decide

/-- C7 (amended): on a statement-execution failure the underlying error
message is surfaced to the caller verbatim, but embedded after the fixed
prefix `Error saving changes: `. -/
theorem error_message_surfaced_with_prefix
    (exec : Table → Stmt → Except String Table) (t : Table) (O E : DataFrame)
    (e : String) (hO : "rowid" ∈ O.columns) (hE : "rowid" ∈ E.columns)
    (hfail : execStmts exec t (saveStmts O E) = Except.error e) :
    (save_changes exec t O E).2 =
      SaveOutcome.failure ("Error saving changes: " ++ e) := by
unfold save_changes
rw [if_pos hO, if_pos hE, hfail]

/-- Witness for C7 (amended): a run failing with `boom` surfaces
`Error saving changes: boom`. -/
theorem error_message_surfaced_with_prefix_witness :
    (save_changes boomExec t4 O5 E5).2 =
      SaveOutcome.failure ("Error saving changes: " ++ "boom") :=
error_message_surfaced_with_prefix boomExec t4 O5 E5 "boom"
  (by decide) (by decide) rfl

/-- Counterexample to C2: `E2` agrees with `O5` on every non-null identifier
(both id sets are `{1}`) and the corresponding rows are equal, yet the
reconciler issues one INSERT, because `E2` carries one extra row with a null
identifier. -/
theorem noop_claim_counterexample :
    get_ids E2 = get_ids O5 ∧ get_ids O5 = {1} ∧
      lookupRow E2 1 = lookupRow O5 1 ∧
      saveStmts O5 E2 = [Stmt.insert [("v", Val.vStr "b")]] := by
decide

/-- C2 (amended): when the non-null identifier sets of the edited and
original snapshots are equal, every row of the edited snapshot has a
non-null identifier, and every pair of corresponding rows has equal
contents, `save_changes` issues zero statements. -/
theorem noop_save_issues_no_statements (O E : DataFrame)
    (hids : get_ids E = get_ids O)
    (hnonull : ∀ r ∈ E.rows, ¬ rowidOf E r = Val.vNull)
    (heq : ∀ rid ∈ get_ids O, lookupRow E rid = lookupRow O rid) :
    saveStmts O E = [] := by
have hdel : deleted_ids O E = ∅ := by
  rw [deleted_ids, hids, Finset.sdiff_self]
have h1 : deleteStmts O E = [] := by
  rw [deleteStmts, hdel]
  simp
have h2 : new_rows E = [] := by
  unfold new_rows
  exact List.filter_eq_nil_iff.mpr (fun r hr => by simpa using hnonull r hr)
have h2i : insertStmts E = [] := by
  unfold insertStmts
  rw [h2]
  rfl
have h3 : updateStmts O E = [] := by
  unfold updateStmts
  refine List.flatMap_eq_nil_iff.mpr (fun i hi => ?_)
  have hc : i ∈ common_ids O E := mem_commonIdList.mp hi
  exact updateFor_eq_nil_of_eq (heq i (Finset.mem_inter.mp hc).1)
unfold saveStmts
rw [h1, h2i, h3]
rfl

/-- Witness for C2 (amended): an unedited snapshot round-trips with zero
statements. -/
theorem noop_save_issues_no_statements_witness : saveStmts O5 O5 = [] :=
noop_save_issues_no_statements O5 O5 (by decide) (by decide) (by decide)

/-- Counterexample to C4: at the claim's literal inputs
`O = {(1,"a"),(2,"b")}`, `E = {(1,"a"),(3,"b")}` the new row carries the
non-null identifier 3, so `save_changes` issues no INSERT at all (row 2 is
still deleted) and reports Added:0, Deleted:1, Updated:0 — not the claimed
one insert and Added:1. -/
theorem scenario_literal_counterexample :
    saveStmts O4 E4raw = [Stmt.delete {2}] ∧ new_rows E4raw = [] ∧
      save_changes sqliteExec t4 O4 E4raw =
        ([(1, [("val", Val.vStr "a")])], SaveOutcome.success 0 1 0) := by
decide

/-- C4 (amended): with the new row entering the edit with a null identifier
(`O = {(1,"a"),(2,"b")}`, `E = {(1,"a"),(null,"b")}`), `save_changes`
deletes row 2, inserts exactly one new row with value `b` (identifier
assigned by the engine), leaves row 1 unchanged, and reports Added:1,
Deleted:1, Updated:0. -/
theorem scenario_add_delete_with_null_id :
    saveStmts O4 E4 = [Stmt.delete {2}, Stmt.insert [("val", Val.vStr "b")]] ∧
      save_changes sqliteExec t4 O4 E4 =
        ([(1, [("val", Val.vStr "a")]), (2, [("val", Val.vStr "b")])],
          SaveOutcome.success 1 1 0) := by
decide

/-- C5: at `O = {(1,"a")}`, `E = {(1,"z")}` the reconciler issues exactly
one UPDATE rewriting the full non-identifier payload of row 1 to `z` and
counts Updated:1; and in general, for every identifier common to both
snapshots, an UPDATE for it is issued iff the two payloads differ. -/
theorem update_full_payload_iff_differs :
    (saveStmts O5 E5 = [Stmt.update [("v", Val.vStr "z")] 1] ∧
      (updateStmts O5 E5).length = 1 ∧
      lookupRow E5 1 = some [("v", Val.vStr "z")]) ∧
    ∀ O E : DataFrame, ∀ rid : Int, rid ∈ common_ids O E →
      ((∃ ps, Stmt.update ps rid ∈ saveStmts O E) ↔
        ¬ lookupRow E rid = lookupRow O rid) := by
refine ⟨by decide, fun O E rid hrid => ⟨?_, ?_⟩⟩
· rintro ⟨ps, hmem⟩
  exact (update_mem_saveStmts hmem).2.2
· intro hne
  obtain ⟨pn, hpn⟩ := lookupRow_isSome_of_mem (Finset.mem_inter.mp hrid).2
  obtain ⟨po, hpo⟩ := lookupRow_isSome_of_mem (Finset.mem_inter.mp hrid).1
  have hpne : ¬ pn = po := by
    intro hcontra
    exact hne (by rw [hpn, hpo, hcontra])
  refine ⟨pn, List.mem_append.mpr (Or.inr ?_)⟩
  unfold updateStmts
  rw [List.mem_flatMap]
  refine ⟨rid, mem_commonIdList.mpr hrid, ?_⟩
  rw [updateFor_eq_of_ne hpn hpo hpne]
  simp

/-- Witness for C5: at the scenario inputs, identifier 1 is common and the
payloads differ, so the iff instantiates to a true biconditional whose
right side holds. -/
theorem update_full_payload_iff_differs_witness :
    ¬ lookupRow E5 1 = lookupRow O5 1 :=
(update_full_payload_iff_differs.2 O5 E5 1 (by decide)).mp
  ⟨[("v", Val.vStr "z")], by decide⟩

/-- C8: every row of the edited snapshot whose identifier is null is
inserted, and its INSERT payload omits the `rowid` column entirely, so the
storage engine assigns the new identifier. -/
theorem null_id_rows_inserted_without_rowid (O E : DataFrame) (r : List Val)
    (hr : r ∈ E.rows) (hnull : rowidOf E r = Val.vNull) :
    Stmt.insert (dropRowid E r) ∈ saveStmts O E ∧
      ∀ c v, (c, v) ∈ dropRowid E r → ¬ c = "rowid" := by
refine ⟨?_, fun c v hcv => dropRowid_no_rowid hcv⟩
have hnew : r ∈ new_rows E := by
  unfold new_rows
  rw [List.mem_filter]
  exact ⟨hr, by simp [hnull]⟩
have hins : Stmt.insert (dropRowid E r) ∈ insertStmts E := by
  unfold insertStmts
  exact List.mem_map.mpr ⟨r, hnew, rfl⟩
exact List.mem_append.mpr (Or.inl (List.mem_append.mpr (Or.inr hins)))

/-- Witness for C8: the null-identifier row of `E4` is inserted. -/
theorem null_id_rows_inserted_without_rowid_witness :
    Stmt.insert (dropRowid E4 newRow4) ∈ saveStmts O4 E4 :=
(null_id_rows_inserted_without_rowid O4 E4 newRow4 (by decide) (by decide)).1

/-- C9: no UPDATE issued by `save_changes` ever touches the `rowid` column:
its SET clause names only non-identifier columns, hence applying it leaves
every stored row's identifier exactly as it was. -/
theorem update_set_clause_never_rewrites_rowid (O E : DataFrame)
    (ps : List (String × Val)) (rid : Int)
    (h : Stmt.update ps rid ∈ saveStmts O E) :
    (∀ c v, (c, v) ∈ ps → ¬ c = "rowid") ∧
      ∀ t : Table, (applyStmt t (Stmt.update ps rid)).map Prod.fst =
        t.map Prod.fst := by
obtain ⟨r, _, hpr⟩ := lookupRow_eq_some (update_mem_saveStmts h).2.1
have hnorowid : ∀ c v, (c, v) ∈ ps → ¬ c = "rowid" := by
  intro c v hcv
  rw [hpr] at hcv
  exact dropRowid_no_rowid hcv
refine ⟨hnorowid, fun t => ?_⟩
have hlk : ps.lookup "rowid" = none := lookup_rowid_eq_none hnorowid
unfold applyStmt
rw [List.map_map]
refine List.map_congr_left (fun a _ => ?_)
by_cases hfst : a.1 = rid
· simp [Function.comp, if_pos hfst, applySet, hlk, hfst]
· simp [Function.comp, if_neg hfst]

/-- Witness for C9: the concrete UPDATE of the `O5`/`E5` scenario preserves
every row identifier of the stored table. -/
theorem update_set_clause_never_rewrites_rowid_witness :
    (applyStmt t4 (Stmt.update [("v", Val.vStr "z")] 1)).map Prod.fst =
      t4.map Prod.fst :=
(update_set_clause_never_rewrites_rowid O5 E5 [("v", Val.vStr "z")] 1
  (by decide)).2 t4

/-- C10: a row of the edited snapshot carrying a non-null identifier absent
from the original id set is silently ignored: it is not among the rows to
insert, its id is in neither `deleted_ids` nor `common_ids`, no UPDATE for
it is issued, and no DELETE targets it (hence none of the Added / Deleted /
Updated counts — the lengths of exactly these statement sources — covers
it). -/
theorem nonnull_unknown_id_rows_ignored (O E : DataFrame) (r : List Val)
    (rid : Int) (_hr : r ∈ E.rows) (hid : rowidOf E r = Val.vInt rid)
    (hnot : ¬ rid ∈ get_ids O) :
    ¬ r ∈ new_rows E ∧ ¬ rid ∈ deleted_ids O E ∧ ¬ rid ∈ common_ids O E ∧
      (∀ ps, ¬ Stmt.update ps rid ∈ saveStmts O E) ∧
      ∀ ids, Stmt.delete ids ∈ saveStmts O E → ¬ rid ∈ ids := by
have hdel : ¬ rid ∈ deleted_ids O E := fun hmem =>
  hnot (Finset.mem_sdiff.mp hmem).1
have hcom : ¬ rid ∈ common_ids O E := fun hmem =>
  hnot (Finset.mem_inter.mp hmem).1
refine ⟨?_, hdel, hcom, ?_, ?_⟩
· intro hmem
  unfold new_rows at hmem
  have := (List.mem_filter.mp hmem).2
  simp [hid] at this
· intro ps hmem
  exact hcom (update_mem_saveStmts hmem).1
· intro ids hmem hin
  rcases List.mem_append.mp hmem with h1 | hu
  · rcases List.mem_append.mp h1 with hd | hi
    · unfold deleteStmts at hd
      split at hd
      · simp only [List.mem_singleton] at hd
        injection hd with hids
        rw [hids] at hin
        exact hdel hin
      · simp at hd
    · unfold insertStmts at hi
      obtain ⟨r2, _, hr2⟩ := List.mem_map.mp hi
      exact Stmt.noConfusion hr2
  · obtain ⟨ps2, rid2, hshape⟩ := mem_updateStmts_shape hu
    exact Stmt.noConfusion hshape

/-- Witness for C10: the row `(3,"b")` of the literal spec scenario is
ignored: it is not a row to insert and its id 3 is in neither derived
set. -/
theorem nonnull_unknown_id_rows_ignored_witness :
    ¬ strayRow4 ∈ new_rows E4raw ∧ ¬ (3 : Int) ∈ deleted_ids O4 E4raw ∧
      ¬ (3 : Int) ∈ common_ids O4 E4raw :=
⟨(nonnull_unknown_id_rows_ignored O4 E4raw strayRow4 3
    (by decide) (by decide) (by decide)).1,
 (nonnull_unknown_id_rows_ignored O4 E4raw strayRow4 3
    (by decide) (by decide) (by decide)).2.1,
 (nonnull_unknown_id_rows_ignored O4 E4raw strayRow4 3
    (by decide) (by decide) (by decide)).2.2.1⟩

end SQLEditor
